import Mathlib

/-!
Shallow embedding of the Deliverease Crypto API (a FastAPI service proxying
the CoinGecko market-data provider) and proofs about its documented
behaviour.  Pure Python functions become Lean functions; machine effects
(the upstream HTTP calls, token serialisation, the clock) become explicit
function parameters; Python exceptions become `Except` errors.  Python
integers are unbounded, so they are embedded as `Int`; Python floor
division `//` is `Int.fdiv`.
-/

namespace CryptoApi

/-- JSON-like values exchanged with the upstream provider and appearing in
response bodies: the embedding of the Python values None, str, int, bool,
list and dict that flow through this service. -/
inductive JVal where
  | null
  | str (s : String)
  | num (n : Int)
  | bool (b : Bool)
  | arr (xs : List JVal)
  | obj (fields : List (String × JVal))

/-- A Python dict with string keys, embedded as an association list in
insertion order. -/
abbrev Dict := List (String × JVal)

/-- Python `d.get(k)` returning `None`-as-`none` when the key is absent:
first (and only, keys are unique in a dict) binding of `k`. -/
def dictLookup : Dict → String → Option JVal
  | [], _ => none
  | (k, v) :: rest, key => if k = key then some v else dictLookup rest key

/-- Python `d.get(k, default)`. -/
def dictGetD (d : Dict) (k : String) (default : JVal) : JVal :=
  (dictLookup d k).getD default

/-- Python `d[k] = v` / `d.update({k: v})` on a dict: replaces the value in
place when the key is present, appends the binding otherwise. -/
def dictSet : Dict → String → JVal → Dict
  | [], key, v => [(key, v)]
  | (k, v0) :: rest, key, v =>
      if k = key then (k, v) :: rest else (k, v0) :: dictSet rest key v

/-- Field access `v[k]` on a JSON object, `none` when `v` is not an object
or lacks the key. -/
def jvalGet : JVal → String → Option JVal
  | .obj fields, k => dictLookup fields k
  | _, _ => none

/-- Python truthiness of a value (`if x:`): None, the empty string, zero,
False and empty collections are falsy. -/
def jvalTruthy : JVal → Bool
  | .null => false
  | .str s => s ≠ ""
  | .num n => n ≠ 0
  | .bool b => b
  | .arr xs => !xs.isEmpty
  | .obj fields => !fields.isEmpty

/-- Python truthiness of an optional string parameter (`if id:`): absent
(`None`) and the empty string are falsy. -/
def truthyStr : Option String → Bool
  | none => false
  | some s => s ≠ ""

/-- Python `str.upper()`: defined on strings only; calling it on any other
value raises an AttributeError (modelled as `none`). -/
def jvalUpper : JVal → Option JVal
  | .str s => some (.str s.toUpper)
  | _ => none

/-- Application settings from `app/config/settings.py` (the fields this
development uses), with their declared defaults. -/
structure Settings where
  app_name : String := "Deliverease Crypto API"
  app_version : String := "1.0.0"
  jwt_secret_key : String := "your-super-secret-jwt-key-change-in-production-min-32-chars"
  jwt_algorithm : String := "HS256"
  jwt_expiration_hours : Int := 24
  default_page_num : Int := 1
  default_per_page : Int := 10
  max_per_page : Int := 100

/-- The settings instance with every field at its declared default, as
produced by `get_settings()` with an empty environment. -/
def defaultSettings : Settings := {}

/-- An HTTP error response as produced by raising `HTTPException`:
status code, detail message, and the optional `WWW-Authenticate` header
(the only response header this code base ever sets on an error). -/
structure HTTPError where
  status_code : Nat
  detail : String
  www_authenticate : Option String
deriving DecidableEq

/-! ## Pagination (`app/utils/pagination.py`) -/

/-- Validated pagination query parameters (`PaginationParams` model). -/
structure PaginationParams where
  page_num : Int
  per_page : Int
deriving DecidableEq

/-- Pydantic field validation of `PaginationParams`: `page_num` is declared
`ge=1`, `per_page` is declared `ge=1, le=100`. -/
def PaginationParams.fieldsValid (page_num per_page : Int) : Bool :=
  1 ≤ page_num && (1 ≤ per_page && per_page ≤ 100)

/-- The `PaginationParams` constructor: missing arguments fall back to the
configured defaults, `per_page` is capped at `settings.max_per_page`, and
the resulting field values then go through pydantic validation (a failure
raises a ValidationError, modelled as `Except.error`). -/
def PaginationParams.init (settings : Settings)
    (page_num0 per_page0 : Option Int) : Except String PaginationParams :=
  let page_num := page_num0.getD settings.default_page_num
  let per_page := per_page0.getD settings.default_per_page
  let per_page := min per_page settings.max_per_page
  if PaginationParams.fieldsValid page_num per_page then
    .ok ⟨page_num, per_page⟩
  else
    .error "ValidationError"

/-- The generic paginated response wrapper (`PaginatedResponse`). -/
structure PaginatedResponse where
  data : List JVal
  total : Int
  page_num : Int
  per_page : Int
  total_pages : Int

/-- `PaginatedResponse.create`: stores the given fields unchanged and
computes `total_pages = (total + per_page - 1) // per_page` with Python
floor division (`Int.fdiv`). -/
def PaginatedResponse.create (data : List JVal) (total page_num per_page : Int) :
    PaginatedResponse :=
  ⟨data, total, page_num, per_page, (total + per_page - 1).fdiv per_page⟩

/-- Effective bound of a Python slice index (step 1): a negative index
counts from the end of the list, then the result is clamped to
`[0, len]`. -/
def pyIndexClamp (len : Nat) (i : Int) : Int :=
  if i < 0 then max 0 ((len : Int) + i) else min i (len : Int)

/-- Python list slicing `xs[i:j]` with step 1. -/
def pySlice {T : Type} (xs : List T) (i j : Int) : List T :=
  (xs.drop (pyIndexClamp xs.length i).toNat).take
    (pyIndexClamp xs.length j - pyIndexClamp xs.length i).toNat

/-- `PaginationHelper.paginate_list`: slices `items[offset : offset + per_page]`
with `offset = (page_num - 1) * per_page` and returns the slice together
with `len(items)`. -/
def PaginationHelper.paginate_list {T : Type} (items : List T)
    (page_num per_page : Int) : List T × Int :=
  let total : Int := items.length
  let offset := (page_num - 1) * per_page
  let stop := offset + per_page
  let paginated := pySlice items offset stop
  (paginated, total)

/-! ## Token codec (`app/auth/jwt_manager.py`, over the PyJWT library) -/

/-- Errors raised by the PyJWT library: `ExpiredSignatureError` and the
other `InvalidTokenError` kinds (signature mismatch, structural decode
failure, bad claim types), each carrying its message. -/
inductive JwtError where
  | expiredSignature (msg : String)
  | invalidToken (msg : String)
deriving DecidableEq

/-- A signed token as produced by `jwt.encode`: the payload together with
the signing key and algorithm.  Signature verification by `jwt.decode` is
modelled as equality of the key and membership of the algorithm, which is
exactly what an HS256 MAC check decides. -/
structure EncodedJwt where
  payload : Dict
  key : String
  alg : String

/-- `jwt.encode(payload, key, algorithm)`. -/
def jwtEncode (payload : Dict) (key alg : String) : EncodedJwt :=
  ⟨payload, key, alg⟩

/-- `jwt.decode(token, key, algorithms)` from PyJWT at time `now`: fails
with `InvalidTokenError` when the signature or algorithm does not match,
then validates the `exp` claim when present — a non-integer `exp` is a
DecodeError, and `exp ≤ now` (no leeway) is an `ExpiredSignatureError` —
and on success returns the payload unchanged. -/
def jwtDecode (token : EncodedJwt) (key : String) (algorithms : List String)
    (now : Int) : Except JwtError Dict :=
  if token.key ≠ key ∨ token.alg ∉ algorithms then
    .error (.invalidToken "Signature verification failed")
  else
    match dictLookup token.payload "exp" with
    | none => .ok token.payload
    | some (.num exp) =>
        if exp ≤ now then .error (.expiredSignature "Signature has expired")
        else .ok token.payload
    | some _ => .error (.invalidToken "Expiration Time claim (exp) must be an integer.")

/-- `JWTManager.create_token(data, expires_delta)` at time `now` (seconds):
copies `data`, sets its `exp` claim to `now` plus the given delta — or plus
the configured `jwt_expiration_hours` when no delta is given — and signs
the result with the configured key and algorithm. -/
def JWTManager.create_token (settings : Settings) (data : Dict) (now : Int)
    (expires_delta : Option Int) : EncodedJwt :=
  let expire := now + expires_delta.getD (settings.jwt_expiration_hours * 3600)
  let to_encode := dictSet data "exp" (.num expire)
  jwtEncode to_encode settings.jwt_secret_key settings.jwt_algorithm

/-- `JWTManager.verify_token(token)` at time `now`: deserialises the token
string (`wire` models the base64 serialisation used on the wire, `none`
meaning structural decode failure, a DecodeError), runs `jwt.decode` with
the configured key and algorithm, and re-raises each failure with a fixed
message: `ExpiredSignatureError("Token has expired")` or
`InvalidTokenError("Invalid token")`. -/
def JWTManager.verify_token (settings : Settings)
    (wire : String → Option EncodedJwt) (token : String) (now : Int) :
    Except JwtError Dict :=
  match wire token with
  | none => .error (.invalidToken "Invalid token")
  | some tok =>
    match jwtDecode tok settings.jwt_secret_key [settings.jwt_algorithm] now with
    | .ok payload => .ok payload
    | .error (.expiredSignature _) => .error (.expiredSignature "Token has expired")
    | .error (.invalidToken _) => .error (.invalidToken "Invalid token")

/-! ## Auth gate (`app/auth/dependencies.py`, over fastapi.security) -/

/-- Split a header value at its first space, as
`get_authorization_scheme_param` does with `str.partition`: the part
before the first space and the untouched remainder after it (both empty
parts stay empty when there is no space). -/
def partitionAtSpace (s : String) : String × String :=
  match s.toList.span (fun c => c ≠ ' ') with
  | (before, []) => (⟨before⟩, "")
  | (before, _ :: after) => (⟨before⟩, ⟨after⟩)

/-- Python `str.lower()`, character by character (structural version of
`String.toLower`, so that concrete schemes evaluate). -/
def strToLower (s : String) : String := ⟨s.toList.map Char.toLower⟩

/-- The `HTTPBearer()` security dependency with its default
`auto_error=True`, from `fastapi.security.http`: a missing `Authorization`
header, an empty scheme or empty credentials yield HTTP 403
"Not authenticated"; a scheme other than `bearer` (case-insensitive)
yields HTTP 403 "Invalid authentication credentials"; neither error sets a
`WWW-Authenticate` header.  On success it returns the credentials part of
the header. -/
def HTTPBearer.call (authorization : Option String) : Except HTTPError String :=
  match authorization with
  | none => .error ⟨403, "Not authenticated", none⟩
  | some v =>
    let sc := partitionAtSpace v
    if v = "" ∨ sc.1 = "" ∨ sc.2 = "" then
      .error ⟨403, "Not authenticated", none⟩
    else if strToLower sc.1 ≠ "bearer" then
      .error ⟨403, "Invalid authentication credentials", none⟩
    else
      .ok sc.2

/-- The `verify_jwt` dependency guarding every route under `/v1/coins` and
`/v1/categories`, composed with its `HTTPBearer` sub-dependency: extracts
the bearer credentials from the `Authorization` header, verifies them with
`JWTManager.verify_token`, and maps `ExpiredSignatureError` to HTTP 401
"Token has expired" and `InvalidTokenError` to HTTP 401 "Invalid token",
both with a `WWW-Authenticate: Bearer` header.  On success it returns the
decoded payload. -/
def verify_jwt (settings : Settings) (wire : String → Option EncodedJwt)
    (authorization : Option String) (now : Int) : Except HTTPError Dict :=
  match HTTPBearer.call authorization with
  | .error e => .error e
  | .ok token =>
    match JWTManager.verify_token settings wire token now with
    | .ok payload => .ok payload
    | .error (.expiredSignature _) => .error ⟨401, "Token has expired", some "Bearer"⟩
    | .error (.invalidToken _) => .error ⟨401, "Invalid token", some "Bearer"⟩

/-- `get_current_user_id`: reads the `sub` claim of the verified payload
(`current_user.get("sub")`, so `None` when absent) and raises HTTP 401
"Invalid token claims" when it is falsy; this `HTTPException` sets no
headers at all. -/
def get_current_user_id (current_user : Dict) : Except HTTPError JVal :=
  let user_id := dictGetD current_user "sub" .null
  if jvalTruthy user_id then .ok user_id
  else .error ⟨401, "Invalid token claims", none⟩

/-! ## Coins router (`app/routers/coins.py`) -/

/-- Exceptions that can be raised inside the `try` body of a coins route
handler: a `fastapi.HTTPException` raised by the handler itself, an error
propagated from the CoinGecko service, or a Python runtime error such as
calling `.upper()` on a non-string. -/
inductive PyExn where
  | http (e : HTTPError)
  | upstream (msg : String)
  | typeError (msg : String)

/-- The coin summary projection built by `list_coins` for each upstream
coin record: id, name, upper-cased symbol (left null when the symbol is
falsy), rank, a `current_price` object repeating the upstream
`current_price` value under `usd`, `inr` and `cad`, market cap, and the
24h market-cap change. -/
def formatCoinSummary (coin : Dict) : Except PyExn JVal :=
  let cp := dictGetD coin "current_price" .null
  let usd := match dictLookup coin "current_price" with
    | some (.obj fields) => JVal.obj fields
    | _ => cp
  let symRaw := dictGetD coin "symbol" .null
  match (if jvalTruthy symRaw then
           (jvalUpper symRaw).map some
         else some none : Option (Option JVal)) with
  | none => .error (.typeError "upper on a non-string symbol")
  | some symUp =>
    .ok (.obj
      [("id", dictGetD coin "id" .null),
       ("name", dictGetD coin "name" .null),
       ("symbol", symUp.getD .null),
       ("market_cap_rank", dictGetD coin "market_cap_rank" .null),
       ("current_price", .obj [("usd", usd), ("inr", cp), ("cad", cp)]),
       ("market_cap", dictGetD coin "market_cap" .null),
       ("market_cap_change_24h", dictGetD coin "market_cap_change_24h" .null)])

/-- The body of the `list_coins` handler (the code inside its `try`):
builds `PaginationParams` from the query values, fetches one upstream page
with the validated pagination values and the order, projects every coin
with `formatCoinSummary`, and wraps the projected page in
`PaginatedResponse.create` with `total = len(formatted_coins)`.
The upstream call `service.get_all_coins(page, per_page, order)` is passed
in as a function; its `.error` models a raised exception. -/
def list_coins_body (settings : Settings) (page_num per_page : Int) (order : String)
    (get_all_coins : Int → Int → String → Except String (List Dict)) :
    Except PyExn PaginatedResponse :=
  match PaginationParams.init settings (some page_num) (some per_page) with
  | .error m => .error (.upstream m)
  | .ok pagination =>
    match get_all_coins pagination.page_num pagination.per_page order with
    | .error m => .error (.upstream m)
    | .ok coins_data =>
      match coins_data.mapM formatCoinSummary with
      | .error e => .error e
      | .ok formatted_coins =>
        .ok (PaginatedResponse.create formatted_coins formatted_coins.length
              pagination.page_num pagination.per_page)

/-- The `list_coins` handler: any exception escaping the `try` body —
upstream failures included — is caught by `except Exception` and replaced
by HTTP 500 "Failed to fetch coins". -/
def list_coins (settings : Settings) (page_num per_page : Int) (order : String)
    (get_all_coins : Int → Int → String → Except String (List Dict)) :
    Except HTTPError PaginatedResponse :=
  match list_coins_body settings page_num per_page order get_all_coins with
  | .ok r => .ok r
  | .error _ => .error ⟨500, "Failed to fetch coins", none⟩

/-- The full `GET /v1/coins` route: FastAPI first validates the declared
query bounds (`page_num` has `Query(ge=1)`, `per_page` has
`Query(ge=1, le=100)`, both with defaults 1 and 10) and rejects an
out-of-range value with HTTP 422 before the handler runs; only then does
the `list_coins` handler execute. -/
def list_coins_route (settings : Settings) (page_num0 per_page0 : Option Int)
    (order : String)
    (get_all_coins : Int → Int → String → Except String (List Dict)) :
    Except HTTPError PaginatedResponse :=
  let page_num := page_num0.getD 1
  let per_page := per_page0.getD 10
  if 1 ≤ page_num ∧ (1 ≤ per_page ∧ per_page ≤ 100) then
    list_coins settings page_num per_page order get_all_coins
  else
    .error ⟨422, "Unprocessable Entity", none⟩

/-- The coin detail projection built by the `id` branch of `filter_coins`:
`coin_data.get("symbol", "").upper()` raises when the symbol value is a
non-string, the `description`, `market_data` and `links` fields default to
empty objects. -/
def formatCoinDetail (coin_data : Dict) : Except PyExn JVal :=
  match jvalUpper (dictGetD coin_data "symbol" (.str "")) with
  | none => .error (.typeError "upper on a non-string symbol")
  | some symUp =>
    .ok (.obj
      [("id", dictGetD coin_data "id" .null),
       ("name", dictGetD coin_data "name" .null),
       ("symbol", symUp),
       ("description", dictGetD coin_data "description" (.obj [])),
       ("market_data", dictGetD coin_data "market_data" (.obj [])),
       ("links", dictGetD coin_data "links" (.obj []))])

/-- The body of the `filter_coins` handler (the code inside its `try`):
when `id` is truthy, fetch and project the coin detail; otherwise, when
`category` is truthy, return the upstream category payload unchanged;
otherwise raise `HTTPException(400, "Either 'id' or 'category' parameter
must be provided")`.  The upstream calls are passed in as functions. -/
def filter_coins_body (id category : Option String)
    (get_coin_by_id get_category_by_id : String → Except String Dict) :
    Except PyExn JVal :=
  if truthyStr id then
    match get_coin_by_id (id.getD "") with
    | .error m => .error (.upstream m)
    | .ok coin_data => formatCoinDetail coin_data
  else if truthyStr category then
    match get_category_by_id (category.getD "") with
    | .error m => .error (.upstream m)
    | .ok category_data => .ok (.obj category_data)
  else
    .error (.http ⟨400, "Either 'id' or 'category' parameter must be provided", none⟩)

/-- The `filter_coins` handler for `GET /v1/coins/filter`: the whole body
runs inside `try`, and `except Exception` catches EVERY exception raised
there — including the `HTTPException(400)` of the missing-parameter branch,
since `HTTPException` subclasses `Exception` — and replaces it with HTTP
500 "Failed to filter coins". -/
def filter_coins (id category : Option String)
    (get_coin_by_id get_category_by_id : String → Except String Dict) :
    Except HTTPError JVal :=
  match filter_coins_body id category get_coin_by_id get_category_by_id with
  | .ok v => .ok v
  | .error _ => .error ⟨500, "Failed to filter coins", none⟩

/-! ## Health service (`app/services/health_service.py`, `app/routers/health.py`) -/

/-- `HealthCheckService.check_coingecko_health`: pings the upstream
(`ping` is the outcome of the HTTP GET on `/ping`, `.error` carrying
`str(e)` of the raised exception); on success it reports a healthy entry,
and on failure it swallows the exception and reports an "unhealthy" entry
embedding the exception text in its `error` field. -/
def check_coingecko_health (ping : Except String Unit) (timestamp : String) : JVal :=
  match ping with
  | .ok _ =>
    .obj [("status", .str "healthy"),
          ("service", .str "CoinGecko API"),
          ("timestamp", .str timestamp)]
  | .error e =>
    .obj [("status", .str "unhealthy"),
          ("service", .str "CoinGecko API"),
          ("error", .str e),
          ("timestamp", .str timestamp)]

/-- `HealthCheckService.get_full_health`: the overall status is "healthy"
exactly when the coingecko entry reports "healthy", and "degraded"
otherwise; the report nests the app metadata and the coingecko entry under
`services.coingecko`. -/
def get_full_health (settings : Settings) (ping : Except String Unit)
    (timestamp : String) : JVal :=
  let coingecko_status := check_coingecko_health ping timestamp
  let overall := match jvalGet coingecko_status "status" with
    | some (.str s) => if s = "healthy" then "healthy" else "degraded"
    | _ => "degraded"
  .obj [("status", .str overall),
        ("app", .obj [("name", .str settings.app_name),
                      ("version", .str settings.app_version),
                      ("timestamp", .str timestamp)]),
        ("services", .obj [("coingecko", coingecko_status)])]

/-- The unauthenticated `GET /health` route: calls `get_full_health` and
returns its report; the surrounding `try` only turns an exception from the
service into HTTP 500, and the service body never raises (its own `try`
swallows the upstream failure), so the route always succeeds. -/
def health_check (settings : Settings) (ping : Except String Unit)
    (timestamp : String) : Except HTTPError JVal :=
  .ok (get_full_health settings ping timestamp)

/-- Status code of a route or dependency outcome: the error status when it
raised an `HTTPException`, `none` on success. -/
def respStatus {α : Type} : Except HTTPError α → Option Nat
  | .error e => some e.status_code
  | .ok _ => none

/-- The `WWW-Authenticate` header of a route or dependency outcome, when
it raised an `HTTPException` that set one. -/
def respChallenge {α : Type} : Except HTTPError α → Option String
  | .error e => e.www_authenticate
  | .ok _ => none

/-! ## Helper lemmas -/

theorem dictLookup_dictSet (d : Dict) (k : String) (v : JVal) :
    dictLookup (dictSet d k v) k = some v := by
  induction d with
  | nil => simp [dictSet, dictLookup]
  | cons kv rest ih =>
    obtain ⟨k0, v0⟩ := kv
    by_cases h : k0 = k
    · simp [dictSet, dictLookup, h]
    · simp [dictSet, dictLookup, h, ih]

theorem ediv_mul_bounds (t p : Int) (hp : 0 < p) :
    ((t + p - 1) / p) * p - p < t ∧ t ≤ ((t + p - 1) / p) * p := by
  have hq1 : ((t + p - 1) / p) * p ≤ t + p - 1 := Int.ediv_mul_le _ hp.ne'
  have hq2 : t + p - 1 < ((t + p - 1) / p + 1) * p := Int.lt_ediv_add_one_mul_self _ hp
  rw [add_mul, one_mul] at hq2
  exact ⟨by linarith, by linarith⟩

theorem fdiv_add_sub_one_eq_ceil (t p : Int) (hp : 0 < p) :
    (t + p - 1).fdiv p = ⌈(t : ℚ) / (p : ℚ)⌉ := by
  rw [Int.fdiv_eq_ediv _ hp.le]
  obtain ⟨h1, h2⟩ := ediv_mul_bounds t p hp
  have hpq : (0 : ℚ) < (p : ℚ) := by exact_mod_cast hp
  symm
  rw [Int.ceil_eq_iff]
  constructor
  · rw [lt_div_iff₀ hpq, sub_mul, one_mul]
    exact_mod_cast h1
  · rw [div_le_iff₀ hpq]
    exact_mod_cast h2

theorem pyIndexClamp_nonneg (len : Nat) (i : Int) (hi : 0 ≤ i) :
    pyIndexClamp len i = min i (len : Int) := by
  simp [pyIndexClamp, not_lt.mpr hi]

theorem drop_toNat_min {T : Type} (xs : List T) (i : Int) (hi : 0 ≤ i) :
    xs.drop (min i (xs.length : Int)).toNat = xs.drop i.toNat := by
  rcases le_total i (xs.length : Int) with h | h
  · rw [min_eq_left h]
  · rw [min_eq_right h]
    rw [List.drop_eq_nil_of_le, List.drop_eq_nil_of_le] <;> omega

theorem pySlice_eq_drop_take {T : Type} (xs : List T) (i j : Int)
    (hi : 0 ≤ i) (hij : i ≤ j) :
    pySlice xs i j = (xs.drop i.toNat).take (j - i).toNat := by
  have hj : 0 ≤ j := le_trans hi hij
  unfold pySlice
  rw [pyIndexClamp_nonneg _ _ hi, pyIndexClamp_nonneg _ _ hj, drop_toNat_min _ _ hi]
  rcases le_total ((xs.length : Int)) i with hni | hin
  · have hd : xs.drop i.toNat = [] := List.drop_eq_nil_of_le (by omega)
    rw [hd]
    simp
  · rw [min_eq_left hin]
    rcases le_total j (xs.length : Int) with hjn | hnj
    · rw [min_eq_left hjn]
    · rw [min_eq_right hnj]
      have hlen : (xs.drop i.toNat).length = xs.length - i.toNat := List.length_drop _ _
      rw [List.take_of_length_le (by omega), List.take_of_length_le (by omega)]

/-! ## Claim theorems -/

/-- C3: for every `total ≥ 0` and `per_page > 0`, `PaginatedResponse.create`
computes `total_pages = ceil(total / per_page)`, `total_pages = 0` holds
exactly when `total = 0`, and the fields `data`, `total`, `page_num` and
`per_page` are stored unchanged. -/
theorem paginatedResponse_create_spec (data : List JVal)
    (total page_num per_page : Int) (htotal : 0 ≤ total) (hper : 0 < per_page) :
    (PaginatedResponse.create data total page_num per_page).total_pages
        = ⌈(total : ℚ) / (per_page : ℚ)⌉
    ∧ ((PaginatedResponse.create data total page_num per_page).total_pages = 0
        ↔ total = 0)
    ∧ (PaginatedResponse.create data total page_num per_page).data = data
    ∧ (PaginatedResponse.create data total page_num per_page).total = total
    ∧ (PaginatedResponse.create data total page_num per_page).page_num = page_num
    ∧ (PaginatedResponse.create data total page_num per_page).per_page = per_page := by
  obtain ⟨h1, h2⟩ := ediv_mul_bounds total per_page hper
  refine ⟨fdiv_add_sub_one_eq_ceil total per_page hper, ?_, rfl, rfl, rfl, rfl⟩
  show (total + per_page - 1).fdiv per_page = 0 ↔ total = 0
  rw [Int.fdiv_eq_ediv _ hper.le]
  constructor
  · intro h0
    rw [h0, zero_mul] at h2
    omega
  · intro h0
    subst h0
    rw [show (0 : Int) + per_page - 1 = per_page - 1 by ring]
    exact Int.ediv_eq_zero_of_lt (by omega) (by omega)

/-- C3 witness: the concrete instance `total = 5`, `per_page = 2`. -/
theorem paginatedResponse_create_spec_witness :
    0 ≤ (5 : Int) ∧ 0 < (2 : Int)
    ∧ ((PaginatedResponse.create [] 5 1 2).total_pages = ⌈(5 : ℚ) / (2 : ℚ)⌉
      ∧ ((PaginatedResponse.create [] 5 1 2).total_pages = 0 ↔ (5 : Int) = 0)
      ∧ (PaginatedResponse.create [] 5 1 2).data = []
      ∧ (PaginatedResponse.create [] 5 1 2).total = 5
      ∧ (PaginatedResponse.create [] 5 1 2).page_num = 1
      ∧ (PaginatedResponse.create [] 5 1 2).per_page = 2) :=
  ⟨by norm_num, by norm_num,
   paginatedResponse_create_spec [] 5 1 2 (by norm_num) (by norm_num)⟩

/-- C4: for every list and every `page_num ≥ 1`, `per_page ≥ 1`,
`paginate_list` returns exactly the slice of the items from offset
`(page_num - 1) * per_page` up to `offset + per_page` — so the page has at
most `per_page` elements and is empty when the offset is at or beyond the
list length — together with the true length of the list as the total. -/
theorem paginate_list_spec {T : Type} (items : List T) (page_num per_page : Int)
    (hpage : 1 ≤ page_num) (hper : 1 ≤ per_page) :
    (PaginationHelper.paginate_list items page_num per_page).1
        = (items.drop ((page_num - 1) * per_page).toNat).take per_page.toNat
    ∧ (PaginationHelper.paginate_list items page_num per_page).2
        = (items.length : Int)
    ∧ ((PaginationHelper.paginate_list items page_num per_page).1).length
        ≤ per_page.toNat
    ∧ ((items.length : Int) ≤ (page_num - 1) * per_page →
        (PaginationHelper.paginate_list items page_num per_page).1 = []) := by
  have hoff : 0 ≤ (page_num - 1) * per_page :=
    mul_nonneg (by omega) (by omega)
  have hslice : pySlice items ((page_num - 1) * per_page)
      ((page_num - 1) * per_page + per_page)
      = (items.drop ((page_num - 1) * per_page).toNat).take per_page.toNat := by
    rw [pySlice_eq_drop_take items _ _ hoff (by omega)]
    congr 1
    omega
  refine ⟨hslice, rfl, ?_, ?_⟩
  · rw [show (PaginationHelper.paginate_list items page_num per_page).1
        = pySlice items ((page_num - 1) * per_page)
            ((page_num - 1) * per_page + per_page) from rfl, hslice]
    rw [List.length_take]
    exact inf_le_left
  · intro hbeyond
    rw [show (PaginationHelper.paginate_list items page_num per_page).1
        = pySlice items ((page_num - 1) * per_page)
            ((page_num - 1) * per_page + per_page) from rfl, hslice]
    rw [List.drop_eq_nil_of_le (by omega)]
    simp

/-- C4 witness: a 10-element list with `page_num = 2`, `per_page = 3`
returns elements 4 through 6 and total 10. -/
theorem paginate_list_spec_witness :
    1 ≤ (2 : Int) ∧ 1 ≤ (3 : Int)
    ∧ ((PaginationHelper.paginate_list
          [1, 2, 3, 4, 5, 6, 7, 8, 9, 10] (2 : Int) 3).1
        = (([1, 2, 3, 4, 5, 6, 7, 8, 9, 10] : List Nat).drop
            (((2 : Int) - 1) * 3).toNat).take (3 : Int).toNat
      ∧ (PaginationHelper.paginate_list
          [1, 2, 3, 4, 5, 6, 7, 8, 9, 10] (2 : Int) 3).2
        = (([1, 2, 3, 4, 5, 6, 7, 8, 9, 10] : List Nat).length : Int)
      ∧ ((PaginationHelper.paginate_list
          [1, 2, 3, 4, 5, 6, 7, 8, 9, 10] (2 : Int) 3).1).length
        ≤ (3 : Int).toNat
      ∧ ((([1, 2, 3, 4, 5, 6, 7, 8, 9, 10] : List Nat).length : Int)
            ≤ ((2 : Int) - 1) * 3 →
          (PaginationHelper.paginate_list
            [1, 2, 3, 4, 5, 6, 7, 8, 9, 10] (2 : Int) 3).1 = []))
    ∧ (PaginationHelper.paginate_list
        [1, 2, 3, 4, 5, 6, 7, 8, 9, 10] (2 : Int) 3).1 = [4, 5, 6]
    ∧ (PaginationHelper.paginate_list
        [1, 2, 3, 4, 5, 6, 7, 8, 9, 10] (2 : Int) 3).2 = 10 :=
  ⟨by norm_num, by norm_num,
   paginate_list_spec [1, 2, 3, 4, 5, 6, 7, 8, 9, 10] 2 3 (by norm_num) (by norm_num),
   by decide, by decide⟩

/-- C5 counterexample: under default settings the configured maximum is
100, and a request to `GET /v1/coins` with `per_page = 150 > 100` is
rejected by FastAPI query validation with HTTP 422 — the handler never
runs, so the request is rejected rather than clamped. -/
theorem list_coins_clamp_counterexample :
    (150 : Int) > defaultSettings.max_per_page
    ∧ list_coins_route defaultSettings (some 1) (some 150) "market_cap_desc"
        (fun _ _ _ => .ok [])
      = .error ⟨422, "Unprocessable Entity", none⟩ :=
  ⟨by decide, rfl⟩

/-- C5 amended: a requested `per_page` that passes the hard route bound
(`per_page ≤ 100`) but exceeds the configured maximum is clamped — the
route behaves exactly as if the configured maximum had been requested, so
the upstream call and the stored page size both use the maximum; a
requested value above the route bound 100 is instead rejected with HTTP
422 before the handler runs. -/
theorem list_coins_clamp_amended (settings : Settings) (page_num per_page : Int)
    (order : String)
    (get_all_coins : Int → Int → String → Except String (List Dict))
    (hpage : 1 ≤ page_num) (h1 : 1 ≤ per_page) (h100 : per_page ≤ 100)
    (hmax1 : 1 ≤ settings.max_per_page) (hmax : settings.max_per_page < per_page) :
    list_coins_route settings (some page_num) (some per_page) order get_all_coins
      = list_coins_route settings (some page_num) (some settings.max_per_page)
          order get_all_coins := by
  have key : PaginationParams.init settings (some page_num) (some per_page)
      = PaginationParams.init settings (some page_num)
          (some settings.max_per_page) := by
    show (if PaginationParams.fieldsValid page_num
              (min per_page settings.max_per_page) then
            Except.ok (⟨page_num, min per_page settings.max_per_page⟩ : PaginationParams)
          else Except.error "ValidationError")
        = if PaginationParams.fieldsValid page_num
              (min settings.max_per_page settings.max_per_page) then
            Except.ok (⟨page_num, min settings.max_per_page settings.max_per_page⟩ : PaginationParams)
          else Except.error "ValidationError"
    rw [min_eq_right hmax.le, min_self]
  show (if 1 ≤ page_num ∧ (1 ≤ per_page ∧ per_page ≤ 100) then
          list_coins settings page_num per_page order get_all_coins
        else Except.error ⟨422, "Unprocessable Entity", none⟩)
      = if 1 ≤ page_num ∧ (1 ≤ settings.max_per_page ∧ settings.max_per_page ≤ 100) then
          list_coins settings page_num settings.max_per_page order get_all_coins
        else Except.error ⟨422, "Unprocessable Entity", none⟩
  rw [if_pos ⟨hpage, h1, h100⟩, if_pos ⟨hpage, hmax1, by omega⟩]
  unfold list_coins list_coins_body
  rw [key]

/-- C5 amended witness: configured maximum 50, requested `per_page = 80`. -/
theorem list_coins_clamp_amended_witness :
    1 ≤ (1 : Int) ∧ 1 ≤ (80 : Int) ∧ (80 : Int) ≤ 100
    ∧ 1 ≤ ({ max_per_page := 50 } : Settings).max_per_page
    ∧ ({ max_per_page := 50 } : Settings).max_per_page < 80
    ∧ list_coins_route ({ max_per_page := 50 } : Settings) (some 1) (some 80)
        "market_cap_desc" (fun _ _ _ => .ok [])
      = list_coins_route ({ max_per_page := 50 } : Settings) (some 1)
          (some ({ max_per_page := 50 } : Settings).max_per_page)
          "market_cap_desc" (fun _ _ _ => .ok []) :=
  ⟨by decide, by decide, by decide, by decide, by decide,
   list_coins_clamp_amended _ 1 80 _ _ (by decide) (by decide) (by decide)
     (by decide) (by decide)⟩

/-- C1: evaluating `filter_coins` on a request that supplies neither `id`
nor `category`: the else branch raises `HTTPException(400, "Either 'id' or
'category' parameter must be provided")` (first conjunct, the body), but
the blanket `except Exception` of the handler catches that very exception
and responds HTTP 500 "Failed to filter coins" (second conjunct) — not
the 400 the raise intended. -/
theorem filter_coins_missing_params
    (get_coin_by_id get_category_by_id : String → Except String Dict) :
    filter_coins_body none none get_coin_by_id get_category_by_id
      = .error (.http ⟨400, "Either 'id' or 'category' parameter must be provided", none⟩)
    ∧ filter_coins none none get_coin_by_id get_category_by_id
      = .error ⟨500, "Failed to filter coins", none⟩ :=
  ⟨rfl, rfl⟩

/-- Helper: for a truthy `id`, the `filter_coins` handler reduces to the
coin branch and never consults the category parameter or the category
upstream call. -/
theorem filter_coins_id_branch (s : String) (hs : s ≠ "") (cat : Option String)
    (get_coin_by_id get_category_by_id : String → Except String Dict) :
    filter_coins (some s) cat get_coin_by_id get_category_by_id
      = match get_coin_by_id s with
        | .error _ => .error ⟨500, "Failed to filter coins", none⟩
        | .ok coin_data =>
          match formatCoinDetail coin_data with
          | .error _ => .error ⟨500, "Failed to filter coins", none⟩
          | .ok v => .ok v := by
  have ht : truthyStr (some s) = true := by simpa [truthyStr] using hs
  unfold filter_coins filter_coins_body
  rw [ht]
  simp only [if_true, Option.getD_some]
  rcases hg : get_coin_by_id s with m | d
  · rfl
  · rcases hfd : formatCoinDetail d with e | v <;> simp [hfd]

/-- C9: when both `id` and `category` are supplied (both non-empty), the
`id` branch takes precedence: the response is identical to the one with no
`category` at all (for any category upstream behaviour), every error it
can produce has status 500 (never 400), and when the upstream coin fetch
and the projection succeed the response is the projected coin detail. -/
theorem filter_coins_id_precedence (s c : String) (hs : s ≠ "")
    (get_coin_by_id get_category_by_id get_category_by_id2 :
      String → Except String Dict) :
    filter_coins (some s) (some c) get_coin_by_id get_category_by_id
      = filter_coins (some s) none get_coin_by_id get_category_by_id2
    ∧ (∀ e, filter_coins (some s) (some c) get_coin_by_id get_category_by_id
          = .error e → e.status_code = 500)
    ∧ (∀ d v, get_coin_by_id s = .ok d → formatCoinDetail d = .ok v →
        filter_coins (some s) (some c) get_coin_by_id get_category_by_id
          = .ok v) := by
  refine ⟨?_, ?_, ?_⟩
  · rw [filter_coins_id_branch s hs _ _ get_category_by_id,
        filter_coins_id_branch s hs _ _ get_category_by_id2]
  · intro e he
    rw [filter_coins_id_branch s hs _ _ get_category_by_id] at he
    rcases hg : get_coin_by_id s with m | d
    · rw [hg] at he
      simp only at he
      injection he with h0
      rw [← h0]
    · rw [hg] at he
      simp only at he
      rcases hfd : formatCoinDetail d with e0 | v
      · rw [hfd] at he
        simp only at he
        injection he with h0
        rw [← h0]
      · rw [hfd] at he
        simp at he
  · intro d v hg hfd
    rw [filter_coins_id_branch s hs _ _ get_category_by_id, hg]
    simp [hfd]

/-- C9 witness: `id = "bitcoin"`, `category = "decentralized-exchange"`,
with a succeeding coin upstream and two different category upstreams. -/
theorem filter_coins_id_precedence_witness :
    ("bitcoin" : String) ≠ ""
    ∧ (filter_coins (some "bitcoin") (some "decentralized-exchange")
          (fun _ => .ok [("id", JVal.str "bitcoin")]) (fun _ => .ok [])
        = filter_coins (some "bitcoin") none
            (fun _ => .ok [("id", JVal.str "bitcoin")]) (fun _ => .error "down")
      ∧ (∀ e, filter_coins (some "bitcoin") (some "decentralized-exchange")
            (fun _ => .ok [("id", JVal.str "bitcoin")]) (fun _ => .ok [])
            = .error e → e.status_code = 500)
      ∧ (∀ d v, (fun (_ : String) =>
            (.ok [("id", JVal.str "bitcoin")] : Except String Dict)) "bitcoin"
              = .ok d →
          formatCoinDetail d = .ok v →
          filter_coins (some "bitcoin") (some "decentralized-exchange")
            (fun _ => .ok [("id", JVal.str "bitcoin")]) (fun _ => .ok [])
            = .ok v)) :=
  ⟨by decide,
   filter_coins_id_precedence "bitcoin" "decentralized-exchange" (by decide)
     (fun _ => .ok [("id", JVal.str "bitcoin")]) (fun _ => .ok [])
     (fun _ => .error "down")⟩

/-- C2 counterexample: a request to a protected route with no
`Authorization` header is answered by the `HTTPBearer` sub-dependency with
HTTP 403 "Not authenticated" and no `WWW-Authenticate` header — not the
claimed 401 with a Bearer challenge. -/
theorem missing_header_counterexample :
    verify_jwt defaultSettings (fun _ => none) none 0
      = .error ⟨403, "Not authenticated", none⟩
    ∧ respStatus (verify_jwt defaultSettings (fun _ => none) none 0) ≠ some 401
    ∧ respChallenge (verify_jwt defaultSettings (fun _ => none) none 0)
      ≠ some "Bearer" :=
  ⟨rfl, by decide, by decide⟩

/-- C2 amended: a request to a protected route with no `Authorization`
header is rejected with HTTP 403 "Not authenticated" and no
`WWW-Authenticate` header (the FastAPI `HTTPBearer` auto-error behaviour);
the 401 responses with a Bearer challenge arise only for a present but
expired or invalid bearer token. -/
theorem verify_jwt_missing_header (settings : Settings)
    (wire : String → Option EncodedJwt) (now : Int) :
    verify_jwt settings wire none now = .error ⟨403, "Not authenticated", none⟩ :=
  rfl

/-- C6 counterexample: the `InvalidClaims` failure (absent or empty `sub`)
raised by `get_current_user_id` is HTTP 401 "Invalid token claims" WITHOUT
a `WWW-Authenticate: Bearer` header, so not every authentication failure
carries the bearer challenge. -/
theorem invalid_claims_no_challenge_counterexample :
    get_current_user_id [] = .error ⟨401, "Invalid token claims", none⟩
    ∧ respChallenge (get_current_user_id []) ≠ some "Bearer" :=
  ⟨rfl, by decide⟩

/-- C6 amended: expired credentials and malformed credentials are surfaced
as HTTP 401 with a `WWW-Authenticate: Bearer` header, but the
`InvalidClaims` failure (the `sub` claim absent or empty) is surfaced as
HTTP 401 without the bearer challenge. -/
theorem auth_failure_challenge (settings : Settings)
    (authorization : Option String) (tokenStr : String) (d payload : Dict)
    (e now : Int)
    (hauth : HTTPBearer.call authorization = .ok tokenStr)
    (hexp : e ≤ now)
    (hsub : dictLookup payload "sub" = none) :
    (∀ wire : String → Option EncodedJwt,
      wire tokenStr = some (jwtEncode (dictSet d "exp" (.num e))
          settings.jwt_secret_key settings.jwt_algorithm) →
      verify_jwt settings wire authorization now
        = .error ⟨401, "Token has expired", some "Bearer"⟩)
    ∧ (∀ wire : String → Option EncodedJwt, wire tokenStr = none →
      verify_jwt settings wire authorization now
        = .error ⟨401, "Invalid token", some "Bearer"⟩)
    ∧ get_current_user_id payload = .error ⟨401, "Invalid token claims", none⟩ := by
  refine ⟨?_, ?_, ?_⟩
  · intro wire hwire
    unfold verify_jwt
    rw [hauth]
    dsimp only
    unfold JWTManager.verify_token
    rw [hwire]
    dsimp only
    unfold jwtDecode
    simp [jwtEncode, dictLookup_dictSet, hexp]
  · intro wire hwire
    unfold verify_jwt
    rw [hauth]
    dsimp only
    unfold JWTManager.verify_token
    rw [hwire]
  · unfold get_current_user_id dictGetD
    rw [hsub]
    simp [jvalTruthy]

/-- C6 amended witness: header `Bearer t`, empty payload, expiry 0 at
time 0. -/
theorem auth_failure_challenge_witness :
    HTTPBearer.call (some "Bearer t") = .ok "t"
    ∧ (0 : Int) ≤ 0
    ∧ dictLookup [] "sub" = none
    ∧ ((∀ wire : String → Option EncodedJwt,
        wire "t" = some (jwtEncode (dictSet [] "exp" (.num 0))
            defaultSettings.jwt_secret_key defaultSettings.jwt_algorithm) →
        verify_jwt defaultSettings wire (some "Bearer t") 0
          = .error ⟨401, "Token has expired", some "Bearer"⟩)
      ∧ (∀ wire : String → Option EncodedJwt, wire "t" = none →
        verify_jwt defaultSettings wire (some "Bearer t") 0
          = .error ⟨401, "Invalid token", some "Bearer"⟩)
      ∧ get_current_user_id [] = .error ⟨401, "Invalid token claims", none⟩) :=
  ⟨rfl, le_refl 0, rfl,
   auth_failure_challenge defaultSettings (some "Bearer t") "t" [] [] 0 0
     rfl (le_refl 0) rfl⟩

/-- C7: round trip of the token codec — a token created with claim
`sub = "a@b.com"` and the default TTL (24 configured hours), when verified
immediately with the same settings, succeeds and returns the issued claims
unchanged apart from the added `exp` claim; in particular the claim set
still contains `sub = "a@b.com"`. -/
theorem token_roundtrip (now : Int) (wire : String → Option EncodedJwt)
    (tokenStr : String)
    (hwire : wire tokenStr = some (JWTManager.create_token defaultSettings
        [("sub", .str "a@b.com")] now none)) :
    JWTManager.verify_token defaultSettings wire tokenStr now
      = .ok [("sub", JVal.str "a@b.com"), ("exp", JVal.num (now + 24 * 3600))]
    ∧ dictLookup [("sub", JVal.str "a@b.com"),
        ("exp", JVal.num (now + 24 * 3600))] "sub"
      = some (.str "a@b.com") := by
  constructor
  · unfold JWTManager.verify_token
    rw [hwire]
    unfold JWTManager.create_token jwtEncode jwtDecode
    simp [dictSet, dictLookup, defaultSettings, show ¬(now + 24 * 3600 ≤ now) by omega]
  · rfl

/-- C7 witness: verification at time 0 with a one-token wire. -/
theorem token_roundtrip_witness :
    (fun _ : String => some (JWTManager.create_token defaultSettings
        [("sub", .str "a@b.com")] 0 none)) "t"
      = some (JWTManager.create_token defaultSettings
          [("sub", .str "a@b.com")] 0 none)
    ∧ (JWTManager.verify_token defaultSettings
        (fun _ => some (JWTManager.create_token defaultSettings
          [("sub", .str "a@b.com")] 0 none)) "t" 0
        = .ok [("sub", JVal.str "a@b.com"), ("exp", JVal.num (0 + 24 * 3600))]
      ∧ dictLookup [("sub", JVal.str "a@b.com"),
          ("exp", JVal.num (0 + 24 * 3600))] "sub"
        = some (.str "a@b.com")) :=
  ⟨rfl, token_roundtrip 0 _ "t" rfl⟩

/-- Helper: a successful `list_coins` handler response stores
`total = len(formatted_coins)` and `data = formatted_coins`, so the total
equals the length of the data on the page. -/
theorem list_coins_body_ok_total (settings : Settings) (page_num per_page : Int)
    (order : String)
    (get_all_coins : Int → Int → String → Except String (List Dict))
    (res : PaginatedResponse)
    (h : list_coins_body settings page_num per_page order get_all_coins
      = .ok res) :
    res.total = (res.data.length : Int) := by
  unfold list_coins_body at h
  split at h
  · cases h
  · split at h
    · cases h
    · split at h
      · cases h
      · injection h with h0
        subst h0
        rfl

/-- Helper: a successful `list_coins` handler response satisfies the same
total-equals-page-count identity. -/
theorem list_coins_ok_total (settings : Settings) (page_num per_page : Int)
    (order : String)
    (get_all_coins : Int → Int → String → Except String (List Dict))
    (res : PaginatedResponse)
    (h : list_coins settings page_num per_page order get_all_coins = .ok res) :
    res.total = (res.data.length : Int) := by
  unfold list_coins at h
  split at h
  · rename_i r heq
    injection h with h0
    subst h0
    exact list_coins_body_ok_total _ _ _ _ _ _ heq
  · cases h

/-- C8: in every successful response of `GET /v1/coins`, the envelope
field `total` equals the length of the `data` field — the count of items
on the returned page — because the handler passes
`total = len(formatted_coins)` to `PaginatedResponse.create`; no true
global count is ever fetched. -/
theorem list_coins_total_is_page_count (settings : Settings)
    (page_num0 per_page0 : Option Int) (order : String)
    (get_all_coins : Int → Int → String → Except String (List Dict))
    (res : PaginatedResponse)
    (hres : list_coins_route settings page_num0 per_page0 order get_all_coins
      = .ok res) :
    res.total = (res.data.length : Int) := by
  have hres2 : (if 1 ≤ page_num0.getD 1
        ∧ (1 ≤ per_page0.getD 10 ∧ per_page0.getD 10 ≤ 100) then
      list_coins settings (page_num0.getD 1) (per_page0.getD 10) order
        get_all_coins
    else Except.error ⟨422, "Unprocessable Entity", none⟩) = .ok res := hres
  split at hres2
  · exact list_coins_ok_total _ _ _ _ _ _ hres2
  · cases hres2

/-- C8 witness: a successful run with an empty upstream page. -/
theorem list_coins_total_is_page_count_witness :
    list_coins_route defaultSettings (some 1) (some 10) "market_cap_desc"
      (fun _ _ _ => .ok []) = .ok (PaginatedResponse.create [] 0 1 10)
    ∧ (PaginatedResponse.create [] 0 1 10).total
      = ((PaginatedResponse.create [] 0 1 10).data.length : Int) :=
  ⟨rfl, list_coins_total_is_page_count defaultSettings (some 1) (some 10)
    "market_cap_desc" (fun _ _ _ => .ok []) (PaginatedResponse.create [] 0 1 10) rfl⟩

/-- C10: when the upstream health probe fails with exception text `e`, the
unauthenticated `GET /health` route still succeeds; the report embeds the
raw exception text under `services.coingecko.error`, marks the coingecko
entry "unhealthy", and sets the TOP-LEVEL status to "degraded" — the top
level is never "unhealthy" for any probe outcome. -/
theorem health_degraded_on_upstream_failure (settings : Settings)
    (e ts : String) :
    health_check settings (.error e) ts
      = .ok (get_full_health settings (.error e) ts)
    ∧ jvalGet (get_full_health settings (.error e) ts) "status"
      = some (.str "degraded")
    ∧ ((jvalGet (get_full_health settings (.error e) ts) "services").bind
        (fun v => jvalGet v "coingecko")).bind (fun v => jvalGet v "error")
      = some (.str e)
    ∧ ((jvalGet (get_full_health settings (.error e) ts) "services").bind
        (fun v => jvalGet v "coingecko")).bind (fun v => jvalGet v "status")
      = some (.str "unhealthy")
    ∧ ∀ ping : Except String Unit,
        jvalGet (get_full_health settings ping ts) "status"
          ≠ some (.str "unhealthy") := by
  refine ⟨rfl, rfl, rfl, rfl, ?_⟩
  intro ping
  rcases ping with u | e2 <;>
    simp [get_full_health, check_coingecko_health, jvalGet, dictLookup] <;>
    decide

end CryptoApi
